import Mathlib

/-!
Verification development for the meme-coin-analysis repository.

Shallow embedding of the discovery / enrichment / ranking / risk pipeline:

* `src/src/utils.py` — `validate_contract_address`, `calculate_risk_score`
* `src/src/twitter_analyzer.py` — tiered backend selection
* `src/src/x_api_v2.py` — quota-limited primary backend (state machine)
* `src/src/token_discovery.py` — Moralis record processing, enrichment,
  trending score, ranking
* `src/src/sentiment_analyzer.py` — aggregate metrics

Python floats are modelled as `ℚ`, Python ints as `ℕ`/`ℤ`, timestamps as `ℚ`
(epoch seconds), dicts as structures with `Option` fields (a missing key is
`none`), `None`-able results as `Option`, and pandas DataFrames as lists of
row structures.  Library calls with nontrivial semantics (datetime parsing,
the pandas sort) are modelled explicitly where the claims depend on them and
are documented at their definitions.
-/

set_option autoImplicit false

namespace MemeCoin

/-- Python `a or b` on optional strings: the first operand if it is truthy
(present and non-empty), otherwise the second operand's value. -/
def pyOrStr : Option String → Option String → Option String
  | some s, b => if s.isEmpty then b else some s
  | none, b => b

/-- Truthiness of an optional string (Python `if s:`): present and non-empty. -/
def strTruthy : Option String → Bool
  | some s => !s.isEmpty
  | none => false

/-! ## utils.py -/

/-- `validate_contract_address` from `src/src/utils.py`.
The source returns `False` for a falsy (empty) address and otherwise
`bool('true')` — the truthiness of the constant string `'true'`; the regex
match against the address pattern is commented out in the source. -/
def validate_contract_address (address : String) : Bool :=
  if address.isEmpty then false
  else !("true" : String).isEmpty

/-- The address pattern from the commented-out line of
`validate_contract_address`: regex `^0x[a-fA-F0-9]{44}$` — `0x` followed by
exactly 44 hexadecimal characters. -/
def contract_address_pattern (s : String) : Bool :=
  match s.toList with
  | '0' :: 'x' :: rest =>
      rest.length = 44 &&
        rest.all (fun c => c.isDigit || ('a' ≤ c && c ≤ 'f') || ('A' ≤ c && c ≤ 'F'))
  | _ => false

/-- Risk factor messages appended by `calculate_risk_score`; each carries the
interpolated value of the corresponding f-string. -/
inductive RiskFactor where
  | highInsider (pct : ℚ)
  | moderateInsider (pct : ℚ)
  | highSniper (pct : ℚ)
  | moderateSniper (pct : ℚ)
  | highBundlers (n : ℤ)
  | moderateBundlers (n : ℤ)
  | lpNotBurned
  deriving DecidableEq

/-- Input mapping of `calculate_risk_score`: `insider_holdings` and
`sniper_holdings` are percent strings whose numeric value we carry as `ℚ`
(`float(x.replace('%',''))`), `bundlers` an integer, `lp_burned` a boolean;
`none` models a missing key (the source supplies defaults via `dict.get`). -/
structure CoinData where
  insider_holdings : Option ℚ
  sniper_holdings : Option ℚ
  bundlers : Option ℤ
  lp_burned : Option Bool
  deriving DecidableEq

/-- Result of `calculate_risk_score`. -/
structure RiskResult where
  score : ℕ
  level : String
  color : String
  factors : List RiskFactor
  deriving DecidableEq

/-- `calculate_risk_score` from `src/src/utils.py`.  The sequential
`risk_score +=` / `risk_factors.append` accumulation is written as a sum /
concatenation of the per-rule contributions, in source order. -/
def calculate_risk_score (c : CoinData) : RiskResult :=
  let insider := c.insider_holdings.getD 0
  let sniper := c.sniper_holdings.getD 0
  let bundlers := c.bundlers.getD 0
  let lp := c.lp_burned.getD false
  let score :=
    (if insider > 30 then 30 else if insider > 20 then 20 else 0) +
    (if sniper > 15 then 25 else if sniper > 10 then 15 else 0) +
    (if bundlers > 5 then 20 else if bundlers > 2 then 10 else 0) +
    (if !lp then 25 else 0)
  let factors :=
    (if insider > 30 then [RiskFactor.highInsider insider]
     else if insider > 20 then [RiskFactor.moderateInsider insider] else []) ++
    (if sniper > 15 then [RiskFactor.highSniper sniper]
     else if sniper > 10 then [RiskFactor.moderateSniper sniper] else []) ++
    (if bundlers > 5 then [RiskFactor.highBundlers bundlers]
     else if bundlers > 2 then [RiskFactor.moderateBundlers bundlers] else []) ++
    (if !lp then [RiskFactor.lpNotBurned] else [])
  let level := if score ≥ 70 then "HIGH" else if score ≥ 40 then "MEDIUM" else "LOW"
  let color := if score ≥ 70 then "🔴" else if score ≥ 40 then "🟡" else "🟢"
  ⟨score, level, color, factors⟩

/-- The score exactly as claim C3 words it: inclusive lower boundaries for the
moderate insider (20–30%) and moderate sniper (10–15%) bands.  Written from
the claim, to be compared against `calculate_risk_score`. -/
def claimedRiskScoreC3 (c : CoinData) : ℕ :=
  let insider := c.insider_holdings.getD 0
  let sniper := c.sniper_holdings.getD 0
  let bundlers := c.bundlers.getD 0
  let lp := c.lp_burned.getD false
  (if insider > 30 then 30 else 0) +
  (if 20 ≤ insider ∧ insider ≤ 30 then 20 else 0) +
  (if sniper > 15 then 25 else 0) +
  (if 10 ≤ sniper ∧ sniper ≤ 15 then 15 else 0) +
  (if bundlers > 5 then 20 else 0) +
  (if 3 ≤ bundlers ∧ bundlers ≤ 5 then 10 else 0) +
  (if !lp then 25 else 0)

/-- The additive score with the boundary cases corrected to what the source
does: strict lower boundaries (`> 20`, `> 10`, `> 2`). -/
def amendedRiskScore (c : CoinData) : ℕ :=
  let insider := c.insider_holdings.getD 0
  let sniper := c.sniper_holdings.getD 0
  let bundlers := c.bundlers.getD 0
  let lp := c.lp_burned.getD false
  (if insider > 30 then 30 else 0) +
  (if 20 < insider ∧ insider ≤ 30 then 20 else 0) +
  (if sniper > 15 then 25 else 0) +
  (if 10 < sniper ∧ sniper ≤ 15 then 15 else 0) +
  (if bundlers > 5 then 20 else 0) +
  (if 2 < bundlers ∧ bundlers ≤ 5 then 10 else 0) +
  (if !lp then 25 else 0)

/-! ## pandas sort model

`DataFrame.sort_values(by, ascending=False)` with the default `kind`:
pandas' `nargsort` computes the ascending `argsort` of the key column and,
for `ascending=False`, reverses that indexer (`indexer[::-1]`).  numpy's
default sort on arrays below its introsort cutoff is an insertion sort,
which is stable, so for such inputs the resulting row order is exactly the
reverse of the stable ascending order — in particular rows with equal keys
come out in reversed input order. -/

/-- Stable insertion into an ascending-by-key sorted list: the new element
goes before the first element of greater-or-equal key, so an element earlier
in the input stays before equal-key elements later in the input. -/
def insortAscBy {α β : Type} [LinearOrder β] (key : α → β) (a : α) : List α → List α
  | [] => [a]
  | b :: bs => if key a ≤ key b then a :: b :: bs else b :: insortAscBy key a bs

/-- Stable ascending sort by key (insertion sort). -/
def stableSortAscBy {α β : Type} [LinearOrder β] (key : α → β) (l : List α) : List α :=
  l.foldr (insortAscBy key) []

/-- `sort_values(by=key, ascending=False)` under the pandas semantics
described above: reverse of the stable ascending order. -/
def pandas_sort_values_desc {α β : Type} [LinearOrder β] (key : α → β) (l : List α) : List α :=
  (stableSortAscBy key l).reverse

/-! ## Social data model -/

/-- One tweet row as built by the API backends (`x_api_v2.py` /
`twitter_api_io.py`); only the fields the verified claims touch are kept
(engagement counters, author reach, identity/text). -/
structure Mention where
  created_at : ℚ
  username : String
  followers : ℚ
  retweets : ℚ
  likes : ℚ
  views : ℚ
  text : String
  deriving DecidableEq

/-! ## x_api_v2.py — quota-limited primary backend -/

/-- In-memory state of an `XAPIv2` instance plus the persisted counter file:
`hasClient` is whether a bearer token was configured, `daily_search_limit`
and `searches_today` the quota fields, `persisted_searches` the `searches`
value last written by `save_rate_limits` (same UTC day throughout). -/
structure XState where
  hasClient : Bool
  daily_search_limit : ℕ
  searches_today : ℕ
  persisted_searches : ℕ
  deriving DecidableEq

/-- `XAPIv2.can_search`. -/
def can_search (s : XState) : Bool :=
  s.searches_today < s.daily_search_limit

/-- Outcome of the one upstream `search_recent_tweets` call, when issued:
a successful response (its rows), a `tweepy.TooManyRequests` error, or any
other exception. -/
inductive UpstreamResult where
  | success (rows : List Mention)
  | tooManyRequests
  | otherError
  deriving DecidableEq

/-- Result of one `XAPIv2.search_tweets` call: the returned value (`none` is
the Python `None` sentinel), the state after the call, and whether an
upstream search request was issued. -/
structure XCallOut where
  result : Option (List Mention)
  state : XState
  requestIssued : Bool
  deriving DecidableEq

/-- The query parts built by `XAPIv2.search_tweets`: the contract address if
truthy, then `$symbol` if the symbol is truthy. -/
def x_query_parts (contract_address : String) (symbol : Option String) : List String :=
  (if contract_address.isEmpty then [] else [contract_address]) ++
    (match symbol with
     | some sy => if sy.isEmpty then [] else ["$" ++ sy]
     | none => [])

/-- `XAPIv2.search_tweets` from `src/src/x_api_v2.py` as a state transition.
No client or exhausted quota returns the `None` sentinel without a request;
an empty query returns an empty frame without a request; otherwise the
upstream request is issued and, on success, `increment_search_count`
increments and persists the counter and the rows are returned sorted by
`created_at` descending; on `TooManyRequests` the counter is forced to the
daily limit and persisted and `None` is returned; any other exception
returns `None` with the counter unchanged. -/
def x_search_tweets (s : XState) (contract_address : String) (symbol : Option String)
    (up : UpstreamResult) : XCallOut :=
  if !s.hasClient || !can_search s then ⟨none, s, false⟩
  else if (x_query_parts contract_address symbol).isEmpty then ⟨some [], s, false⟩
  else
    match up with
    | .success rows =>
        ⟨some (pandas_sort_values_desc (fun m => m.created_at) rows),
          { s with searches_today := s.searches_today + 1,
                   persisted_searches := s.searches_today + 1 }, true⟩
    | .tooManyRequests =>
        ⟨none, { s with searches_today := s.daily_search_limit,
                        persisted_searches := s.daily_search_limit }, true⟩
    | .otherError => ⟨none, s, true⟩

/-- A sequence of `XAPIv2.search_tweets` calls within one day, threading the
state; returns, per call, the returned value and whether an upstream request
was issued, plus the final state. -/
def x_run (s : XState) : List (String × Option String × UpstreamResult) →
    List (Option (List Mention) × Bool) × XState
  | [] => ([], s)
  | c :: cs =>
      let o := x_search_tweets s c.1 c.2.1 c.2.2
      let rest := x_run o.state cs
      ((o.result, o.requestIssued) :: rest.1, rest.2)

/-! ## twitter_analyzer.py — tiered backend selection -/

/-- `TwitterAnalyzer.search_tweets` from `src/src/twitter_analyzer.py`, with
the two backend calls abstracted as inputs: `primary` is what
`XAPIv2.search_tweets` returned (`none` = the not-attempted sentinel) and
`secondary` what `TwitterAPIio.search_tweets` would return.  The second
component records whether the secondary backend was invoked. -/
def analyzer_search_tweets {α : Type} (primary : Option (List α)) (secondary : List α) :
    List α × Bool :=
  match primary with
  | some result =>
      if !result.isEmpty then (result, false)
      else (result, false)
  | none => (secondary, true)

/-! ## token_discovery.py — Moralis record processing (C4) -/

/-- One raw Moralis listing record (`token` in `_get_moralis_new_tokens`);
`none` models a missing key.  Numeric values are carried as `ℚ` (`none` also
covers values `float()` would reject, which `safe_float` maps to its
default).  The alternative-key fallbacks `marketCap or market_cap` and
`volume24h or volume` are collapsed into one field each; the fields the
claims never read (`decimals`, `totalSupply`, `description`, social links)
are omitted. -/
structure RawToken where
  createdAt : Option String
  created_at : Option String
  mint : Option String
  address : Option String
  tokenAddress : Option String
  symbol : Option String
  name : Option String
  liquidity : Option ℚ
  marketCap : Option ℚ
  price : Option String
  volume24h : Option ℚ
  priceChange24h : Option ℚ
  deriving DecidableEq

/-- `safe_float` from `_get_moralis_new_tokens`: `float(value) if value else
default`, with conversion failures mapped to the default — a missing,
unconvertible, or falsy (zero) value yields the default. -/
def safe_float (v : Option ℚ) (default : ℚ) : ℚ :=
  match v with
  | some x => if x = 0 then default else x
  | none => default

/-- `token.get('createdAt') or token.get('created_at')`. -/
def moralis_created_at_str (t : RawToken) : Option String :=
  pyOrStr t.createdAt t.created_at

/-- `token.get('mint') or token.get('address') or token.get('tokenAddress')`. -/
def moralis_contract_addr (t : RawToken) : Option String :=
  pyOrStr t.mint (pyOrStr t.address t.tokenAddress)

/-- A discovery token record as appended by `_get_moralis_new_tokens`
(fields the claims never read omitted, as on `RawToken`). -/
structure DToken where
  contract_address : Option String
  symbol : String
  name : String
  chain : String
  created_at : ℚ
  liquidity : ℚ
  market_cap : ℚ
  price : String
  volume_24h : ℚ
  price_change_24h : ℚ
  source : String
  exchange : String
  deriving DecidableEq

/-- The record `_get_moralis_new_tokens` appends for raw token `t` with
creation time `dt` (both the parsed-timestamp branch and the
unparseable-timestamp branch build these same fields, the latter with the
current time as `dt`). -/
def moralis_token_record (t : RawToken) (dt : ℚ) : DToken :=
  { contract_address := moralis_contract_addr t
    symbol := t.symbol.getD "Unknown"
    name := t.name.getD "Unknown"
    chain := "solana"
    created_at := dt
    liquidity := safe_float t.liquidity 0
    market_cap := safe_float t.marketCap 0
    price := t.price.getD "0"
    volume_24h := safe_float t.volume24h 0
    price_change_24h := safe_float t.priceChange24h 0
    source := "moralis_pumpfun"
    exchange := "pumpfun" }

/-- The per-record body of the `for token in token_list` loop of
`_get_moralis_new_tokens` (lines 86–162): with a truthy creation-timestamp
string, parse it — on success keep the record iff it is within the recency
window, on a parse exception still append the record with the current time
as `created_at`; with no truthy timestamp string, do nothing (the record is
dropped).  `parse` abstracts the `datetime.fromisoformat` / `strptime`
attempt (`none` = both raise), `now` the current UTC time, `cutoff` the
recency cutoff. -/
def moralis_process_record (parse : String → Option ℚ) (now cutoff : ℚ)
    (t : RawToken) : List DToken :=
  match moralis_created_at_str t with
  | some s =>
      if s.isEmpty then []
      else
        match parse s with
        | some dt => if cutoff ≤ dt then [moralis_token_record t dt] else []
        | none => [moralis_token_record t now]
  | none => []

/-- The token-collecting loop of `_get_moralis_new_tokens` over a fetched
`token_list`, with `cutoff_time = now - timedelta(minutes=minutes_old)`. -/
def get_moralis_new_tokens (parse : String → Option ℚ) (now minutes_old : ℚ)
    (token_list : List RawToken) : List DToken :=
  (token_list.map (moralis_process_record parse now (now - 60 * minutes_old))).flatten

/-! ## token_discovery.py — enrichment (C5) -/

/-- `top_influencer` digest built from the tweet with the most followers. -/
structure Influencer where
  username : String
  followers : ℚ
  text : String
  deriving DecidableEq

/-- Maximum of a list of rationals (`Series.max` on a non-empty column;
`0` only for the empty list, on which the source never takes a max). -/
def qmax : List ℚ → ℚ
  | [] => 0
  | [x] => x
  | x :: y :: xs => max x (qmax (y :: xs))

/-- `tweets.nlargest(1, 'followers').iloc[0]` digest: the first tweet
attaining the maximal follower count, with the text truncated to 100
characters. -/
def top_influencer_of (tweets : List Mention) : Option Influencer :=
  let mx := qmax (tweets.map (fun m => m.followers))
  (tweets.find? (fun m => m.followers == mx)).map
    (fun m => ⟨m.username, m.followers, ⟨m.text.toList.take 100⟩⟩)

/-- A token record after `check_twitter_mentions`: the unchanged base token
payload plus the enrichment fields the worker writes (`twitter_data` is the
tweets frame itself; we keep the derived metrics). -/
structure Enriched (α : Type) where
  base : α
  twitter_mentions : ℕ
  total_views : ℚ
  total_likes : ℚ
  total_retweets : ℚ
  avg_followers : ℚ
  max_followers : ℚ
  top_influencer : Option Influencer
  deriving DecidableEq

/-- The zero-valued default enrichment written by the error paths (and by
the no-tweets path) of `check_twitter_mentions`. -/
def default_enrichment {α : Type} (a : α) : Enriched α :=
  ⟨a, 0, 0, 0, 0, 0, 0, none⟩

/-- What one enrichment attempt did for one token: the
`twitter_client.search_tweets` call raised (or the worker future failed), or
it returned (possibly `None`, possibly an empty frame). -/
inductive FetchOutcome where
  | raises
  | fetched (tweets : Option (List Mention))
  deriving DecidableEq

/-- `check_single_token` from `TokenDiscovery.check_twitter_mentions`: any
exception yields the zero defaults; a `None` result is coerced to an empty
frame; an empty frame yields the zero defaults; otherwise the engagement
metrics are computed from the tweet rows. -/
def check_single_token {α : Type} (a : α) (out : FetchOutcome) : Enriched α :=
  match out with
  | .raises => default_enrichment a
  | .fetched t =>
      let tweets := t.getD []
      if tweets.isEmpty then default_enrichment a
      else
        { base := a
          twitter_mentions := tweets.length
          total_views := (tweets.map (fun m => m.views)).sum
          total_likes := (tweets.map (fun m => m.likes)).sum
          total_retweets := (tweets.map (fun m => m.retweets)).sum
          avg_followers := (tweets.map (fun m => m.followers)).sum / tweets.length
          max_followers := qmax (tweets.map (fun m => m.followers))
          top_influencer := top_influencer_of tweets }

/-- `TokenDiscovery.check_twitter_mentions`: every submitted token is
processed independently by `check_single_token`; the worker pool appends
results in completion order, so the function is applied to the submitted
batch in some permuted order (`completed`), each token paired with its own
fetch outcome. -/
def check_twitter_mentions {α : Type} (completed : List (α × FetchOutcome)) :
    List (Enriched α) :=
  completed.map (fun p => check_single_token p.1 p.2)

/-! ## token_discovery.py — trending score and ranking (C7, C8) -/

/-- The trending-score formula of `discover_trending_tokens` (lines
508–514). -/
def trending_score (mentions total_views total_likes total_retweets max_followers : ℚ) : ℚ :=
  mentions * 10 + total_views / 1000 + total_likes * 2 + total_retweets * 3 +
    max_followers / 10000

/-- The `trending_score` column value for one enriched token row. -/
def trending_score_of {α : Type} (t : Enriched α) : ℚ :=
  trending_score t.twitter_mentions t.total_views t.total_likes t.total_retweets
    t.max_followers

/-- The ranking step of `discover_trending_tokens`: drop tokens below the
`min_mentions` floor (only when the floor is positive), then
`df.sort_values('trending_score', ascending=False)` under the pandas
semantics of `pandas_sort_values_desc`. -/
def discover_rank {α : Type} (tokens : List (Enriched α)) (min_mentions : ℕ) :
    List (Enriched α) :=
  let kept := if 0 < min_mentions
    then tokens.filter (fun t => min_mentions ≤ t.twitter_mentions)
    else tokens
  pandas_sort_values_desc trending_score_of kept

/-! ## sentiment_analyzer.py — aggregate metrics (C6) -/

/-- A tweet row carrying the sentiment columns, as consumed by
`get_aggregate_metrics` after `analyze_tweets` has run (the `'sentiment' in
columns` check in the source is then true). -/
structure SMention where
  sentiment : String
  sentiment_score : ℚ
  views : ℚ
  retweets : ℚ
  likes : ℚ
  followers : ℚ
  deriving DecidableEq

/-- The per-bucket engagement sub-metrics of `engagement_by_sentiment`. -/
structure BucketEngagement where
  avg_views : ℚ
  avg_retweets : ℚ
  avg_likes : ℚ
  total_reach : ℚ
  avg_followers : ℚ
  deriving DecidableEq

/-- The dict returned by `SentimentAnalyzer.get_aggregate_metrics`.  The two
dict-valued entries are modelled by their lookup semantics:
`sentiment_distribution` as the count per sentiment value
(`value_counts().to_dict()` read through `.get(key, 0)`) and
`engagement_by_sentiment` as key → `some` bucket when the key is present. -/
structure AggregateMetrics where
  total_tweets : ℕ
  positive_count : ℕ
  negative_count : ℕ
  neutral_count : ℕ
  average_sentiment : ℚ
  sentiment_distribution : String → ℕ
  engagement_by_sentiment : String → Option BucketEngagement

/-- Mean of a column over a non-empty row list (pandas `Series.mean`). -/
def qmean (l : List ℚ) : ℚ := l.sum / l.length

/-- `SentimentAnalyzer.get_aggregate_metrics` from
`src/src/sentiment_analyzer.py`: the empty frame returns the literal
all-zero dict whose `sentiment_distribution` and `engagement_by_sentiment`
are *empty* dicts; a non-empty frame fills the three sentiment buckets
(all-zero sub-metrics for an empty bucket) and the counts. -/
def get_aggregate_metrics (tweets : List SMention) : AggregateMetrics :=
  if tweets.isEmpty then
    ⟨0, 0, 0, 0, 0, fun _ => 0, fun _ => none⟩
  else
    let counts : String → ℕ := fun s => (tweets.filter (fun m => m.sentiment == s)).length
    let engagement : String → Option BucketEngagement := fun s =>
      if s = "positive" ∨ s = "negative" ∨ s = "neutral" then
        let bucket := tweets.filter (fun m => m.sentiment == s)
        if bucket.isEmpty then some ⟨0, 0, 0, 0, 0⟩
        else some ⟨qmean (bucket.map (fun m => m.views)),
                   qmean (bucket.map (fun m => m.retweets)),
                   qmean (bucket.map (fun m => m.likes)),
                   (bucket.map (fun m => m.followers)).sum,
                   qmean (bucket.map (fun m => m.followers))⟩
      else none
    ⟨tweets.length, counts "positive", counts "negative", counts "neutral",
      qmean (tweets.map (fun m => m.sentiment_score)), counts, engagement⟩

/-! ## Helper lemmas -/

/-- A call with exhausted quota is a no-op returning the sentinel. -/
lemma x_search_tweets_exhausted (s : XState) (ca : String) (sym : Option String)
    (up : UpstreamResult) (h : s.daily_search_limit ≤ s.searches_today) :
    x_search_tweets s ca sym up = ⟨none, s, false⟩ := by
  have hcs : can_search s = false := by
    simp only [can_search, decide_eq_false_iff_not, not_lt]
    exact h
  simp [x_search_tweets, hcs]

/-- With exhausted quota, every call of a run returns the sentinel and
issues no request. -/
lemma x_run_exhausted : ∀ (calls : List (String × Option String × UpstreamResult))
    (s : XState), s.daily_search_limit ≤ s.searches_today →
    ∀ o ∈ (x_run s calls).1, o = (none, false)
  | [], s, _ => by simp [x_run]
  | c :: cs, s, h => by
      intro o ho
      rw [x_run] at ho
      rw [x_search_tweets_exhausted s c.1 c.2.1 c.2.2 h] at ho
      rcases List.mem_cons.1 ho with h1 | h2
      · exact h1
      · exact x_run_exhausted cs s h o h2

/-- An elif band pair `if x > hi then a else if x > lo then b else 0` equals
the sum of the two disjoint indicator contributions. -/
lemma band_split {α : Type} [LinearOrder α] (x hi lo : α) (a b : ℕ) :
    (if x > hi then a else if x > lo then b else 0) =
      (if x > hi then a else 0) + (if lo < x ∧ x ≤ hi then b else 0) := by
  rcases lt_or_le hi x with h1 | h1
  · rw [if_pos h1, if_pos h1, if_neg fun hc => absurd hc.2 (not_le.mpr h1), Nat.add_zero]
  · rw [if_neg (not_lt.mpr h1), if_neg (not_lt.mpr h1), Nat.zero_add]
    rcases lt_or_le lo x with h2 | h2
    · rw [if_pos h2, if_pos ⟨h2, h1⟩]
    · rw [if_neg (not_lt.mpr h2), if_neg fun hc => absurd hc.1 (not_lt.mpr h2)]

/-! ## Theorems for the claims -/

/-- C1: tiered backend selection — `TwitterAnalyzer.search_tweets` returns
the primary backend's result unchanged (empty or not) without invoking the
secondary whenever the primary result is not the `None` sentinel, and
returns exactly the secondary backend's result (invoking it) when the
primary returned the sentinel. -/
theorem C1_tiered_backend_selection {α : Type} (primary : Option (List α))
    (secondary : List α) :
    (∀ l, primary = some l → analyzer_search_tweets primary secondary = (l, false)) ∧
    (primary = none → analyzer_search_tweets primary secondary = (secondary, true)) := by
  constructor
  · intro l h
    subst h
    cases hl : l.isEmpty <;> simp [analyzer_search_tweets, hl]
  · intro h
    subst h
    rfl

theorem C1_tiered_backend_selection_witness :
    analyzer_search_tweets (some [(1 : ℕ)]) [2] = ([1], false) ∧
    analyzer_search_tweets (none : Option (List ℕ)) [2] = ([2], true) :=
  ⟨(C1_tiered_backend_selection (some [1]) [2]).1 [1] rfl,
   (C1_tiered_backend_selection none [2]).2 rfl⟩

/-- C9: the code accepts the malformed address `"abc"` —
`validate_contract_address` returns `True` for every non-empty string
(`bool('true')` is constant), although `"abc"` does not match the
chain-specific address pattern the function was meant to check. -/
theorem C9_validate_accepts_invalid_address :
    validate_contract_address "abc" = true ∧
    contract_address_pattern "abc" = false := by
  exact ⟨rfl, by decide⟩

/-- C10: `calculate_risk_score` on the empty metrics mapping (all four keys
missing) yields score 25, level LOW, with the sole factor "LP not burned";
and a missing `lp_burned` key is scored identically to an explicit
`lp_burned = False`. -/
theorem C10_missing_keys_defaults :
    calculate_risk_score ⟨none, none, none, none⟩ =
      ⟨25, "LOW", "🟢", [RiskFactor.lpNotBurned]⟩ ∧
    ∀ c : CoinData,
      calculate_risk_score { c with lp_burned := none } =
        calculate_risk_score { c with lp_burned := some false } := by
  exact ⟨rfl, fun c => rfl⟩

/-- C6 counterexample: on an empty mentions collection,
`get_aggregate_metrics` does *not* return the three all-zero
per-sentiment engagement buckets the claim describes — its
`engagement_by_sentiment` is the empty dict. -/
theorem C6_empty_aggregate_counterexample :
    ¬ ((get_aggregate_metrics ([] : List SMention)).engagement_by_sentiment "positive" =
          some ⟨0, 0, 0, 0, 0⟩ ∧
       (get_aggregate_metrics ([] : List SMention)).engagement_by_sentiment "negative" =
          some ⟨0, 0, 0, 0, 0⟩ ∧
       (get_aggregate_metrics ([] : List SMention)).engagement_by_sentiment "neutral" =
          some ⟨0, 0, 0, 0, 0⟩) := by
  intro h
  exact absurd h.1 (by decide)

/-- C6 amended: `get_aggregate_metrics` applied to an empty mentions
collection returns, without failing, total 0, all sentiment counts 0,
average sentiment 0, and an *empty* `engagement_by_sentiment` mapping
(no sentiment bucket is present). -/
theorem C6_empty_aggregate_all_zero :
    (get_aggregate_metrics ([] : List SMention)).total_tweets = 0 ∧
    (get_aggregate_metrics ([] : List SMention)).positive_count = 0 ∧
    (get_aggregate_metrics ([] : List SMention)).negative_count = 0 ∧
    (get_aggregate_metrics ([] : List SMention)).neutral_count = 0 ∧
    (get_aggregate_metrics ([] : List SMention)).average_sentiment = 0 ∧
    (∀ s, (get_aggregate_metrics ([] : List SMention)).sentiment_distribution s = 0) ∧
    (∀ s, (get_aggregate_metrics ([] : List SMention)).engagement_by_sentiment s = none) :=
  ⟨rfl, rfl, rfl, rfl, rfl, fun _ => rfl, fun _ => rfl⟩

/-- C4 counterexample: with a parser that rejects the timestamp string, a
record whose timestamp string is present but unparseable is *kept* (not
dropped), and a record with no timestamp field at all is *dropped* (not
kept) — the opposite of the claim. -/
theorem C4_timestamp_policy_counterexample :
    ¬ ((get_moralis_new_tokens (fun _ => none) 1000 3
          [⟨some "not-a-timestamp", none, some "addr1", none, none, none, none, none,
            none, none, none, none⟩] = []) ∧
       (get_moralis_new_tokens (fun _ => none) 1000 3
          [⟨none, none, some "addr2", none, none, none, none, none, none, none, none,
            none⟩]).length = 1) := by
  intro h
  exact absurd h.1 (by decide)

/-- C4 amended: for every raw Moralis listing record, a record whose
creation-timestamp string is present (truthy) but cannot be parsed is still
included in the result, with the current UTC time substituted as its
`created_at`, whereas a record with no timestamp field at all is dropped. -/
theorem C4_timestamp_policy (parse : String → Option ℚ) (now cutoff : ℚ) (t : RawToken) :
    (∀ s, moralis_created_at_str t = some s → s.isEmpty = false → parse s = none →
        moralis_process_record parse now cutoff t = [moralis_token_record t now]) ∧
    (moralis_created_at_str t = none →
        moralis_process_record parse now cutoff t = []) := by
  constructor
  · intro s hs hne hp
    simp [moralis_process_record, hs, hne, hp]
  · intro hs
    simp [moralis_process_record, hs]

theorem C4_timestamp_policy_witness :
    moralis_process_record (fun _ => none) 5 2
        ⟨some "x", none, some "a", none, none, none, none, none, none, none, none, none⟩ =
      [moralis_token_record
        ⟨some "x", none, some "a", none, none, none, none, none, none, none, none, none⟩ 5] ∧
    moralis_process_record (fun _ => none) 5 2
        ⟨none, none, some "a", none, none, none, none, none, none, none, none, none⟩ = [] :=
  ⟨(C4_timestamp_policy (fun _ => none) 5 2 _).1 "x" rfl rfl rfl,
   (C4_timestamp_policy (fun _ => none) 5 2 _).2 rfl⟩

/-- C5: enrichment failure isolation — `check_twitter_mentions` produces
exactly one output record per input token regardless of the completion
order of the worker pool, every token's enriched record (computed from its
own fetch outcome alone) appears in the output, and a token whose
enrichment raises receives the zero-valued default fields
(`twitter_mentions = 0`, all engagement totals 0, `top_influencer = none`). -/
theorem C5_enrichment_isolation {α : Type} (submitted completed : List (α × FetchOutcome))
    (h : completed.Perm submitted) :
    (check_twitter_mentions completed).length = submitted.length ∧
    (∀ p ∈ submitted, check_single_token p.1 p.2 ∈ check_twitter_mentions completed) ∧
    (∀ a : α, check_single_token a FetchOutcome.raises = default_enrichment a) := by
  refine ⟨?_, ?_, fun a => rfl⟩
  · simpa [check_twitter_mentions] using h.length_eq
  · intro p hp
    exact List.mem_map_of_mem _ (h.mem_iff.mpr hp)

theorem C5_enrichment_isolation_witness :
    (check_twitter_mentions
        [((0 : ℕ), FetchOutcome.raises), (1, FetchOutcome.fetched none)]).length = 2 ∧
    check_single_token (0 : ℕ) FetchOutcome.raises ∈
      check_twitter_mentions [((0 : ℕ), FetchOutcome.raises), (1, FetchOutcome.fetched none)] :=
  ⟨(C5_enrichment_isolation _ _ (List.Perm.refl _)).1,
   (C5_enrichment_isolation _ _ (List.Perm.refl _)).2.1 ((0 : ℕ), FetchOutcome.raises)
     (by simp)⟩

/-- C2: quota state machine of the primary backend, within one day.
(1) While `searches_today ≥ daily_search_limit` a call issues no upstream
request, leaves the state unchanged and returns the `None` sentinel.
(2) A successful upstream search increments `searches_today` by exactly one
and persists the new counter.  (3) A too-many-requests upstream error
returns the sentinel with `searches_today` forced to `daily_search_limit`
and persisted, after which every further call that day returns the sentinel
without issuing a request. -/
theorem C2_quota_state_machine (s : XState) (ca : String) (sym : Option String) :
    (∀ up, s.daily_search_limit ≤ s.searches_today →
        x_search_tweets s ca sym up = ⟨none, s, false⟩) ∧
    (∀ rows, s.hasClient = true → s.searches_today < s.daily_search_limit →
        (x_query_parts ca sym).isEmpty = false →
        (x_search_tweets s ca sym (UpstreamResult.success rows)).requestIssued = true ∧
        (x_search_tweets s ca sym (UpstreamResult.success rows)).state.searches_today =
          s.searches_today + 1 ∧
        (x_search_tweets s ca sym (UpstreamResult.success rows)).state.persisted_searches =
          s.searches_today + 1) ∧
    (s.hasClient = true → s.searches_today < s.daily_search_limit →
        (x_query_parts ca sym).isEmpty = false →
        (x_search_tweets s ca sym UpstreamResult.tooManyRequests).result = none ∧
        (x_search_tweets s ca sym UpstreamResult.tooManyRequests).state.searches_today =
          s.daily_search_limit ∧
        (x_search_tweets s ca sym UpstreamResult.tooManyRequests).state.persisted_searches =
          s.daily_search_limit ∧
        ∀ calls o,
          o ∈ (x_run (x_search_tweets s ca sym UpstreamResult.tooManyRequests).state calls).1 →
          o = (none, false)) := by
  have hqp : ∀ (hc : s.hasClient = true) (hlt : s.searches_today < s.daily_search_limit)
      (hq : (x_query_parts ca sym).isEmpty = false) (up : UpstreamResult),
      x_search_tweets s ca sym up =
        match up with
        | UpstreamResult.success rows =>
            ⟨some (pandas_sort_values_desc (fun m => m.created_at) rows),
              { s with searches_today := s.searches_today + 1,
                       persisted_searches := s.searches_today + 1 }, true⟩
        | UpstreamResult.tooManyRequests =>
            ⟨none, { s with searches_today := s.daily_search_limit,
                            persisted_searches := s.daily_search_limit }, true⟩
        | UpstreamResult.otherError => ⟨none, s, true⟩ := by
    intro hc hlt hq up
    have hcs : can_search s = true := by
      simp only [can_search, decide_eq_true_eq]
      exact hlt
    simp [x_search_tweets, hc, hcs, hq]
  refine ⟨fun up h => x_search_tweets_exhausted s ca sym up h, ?_, ?_⟩
  · intro rows hc hlt hq
    rw [hqp hc hlt hq]
    exact ⟨rfl, rfl, rfl⟩
  · intro hc hlt hq
    rw [hqp hc hlt hq]
    refine ⟨rfl, rfl, rfl, ?_⟩
    intro calls o ho
    exact x_run_exhausted calls _ (le_refl _) o ho

theorem C2_quota_state_machine_witness :
    x_search_tweets ⟨true, 500, 500, 500⟩ "ca" none UpstreamResult.otherError =
      ⟨none, ⟨true, 500, 500, 500⟩, false⟩ ∧
    (x_search_tweets ⟨true, 500, 3, 3⟩ "ca" none (UpstreamResult.success [])).state.searches_today
      = 4 ∧
    (x_search_tweets ⟨true, 500, 3, 3⟩ "ca" none
        UpstreamResult.tooManyRequests).state.persisted_searches = 500 :=
  ⟨(C2_quota_state_machine ⟨true, 500, 500, 500⟩ "ca" none).1 UpstreamResult.otherError
      (by decide),
   ((C2_quota_state_machine ⟨true, 500, 3, 3⟩ "ca" none).2.1 [] rfl (by decide) rfl).2.1,
   ((C2_quota_state_machine ⟨true, 500, 3, 3⟩ "ca" none).2.2 rfl (by decide) rfl).2.2.1⟩

/-- C3 counterexample: at `insider_holdings = 20%` (with everything else
risk-free) the claimed rule table (inclusive 20–30% band) awards 20 points,
but `calculate_risk_score` uses the strict comparison `> 20` and awards 0. -/
theorem C3_inclusive_boundary_counterexample :
    (calculate_risk_score ⟨some 20, some 0, some 0, some true⟩).score ≠
      claimedRiskScoreC3 ⟨some 20, some 0, some 0, some true⟩ := by
  decide

/-- C3 amended: `calculate_risk_score` returns score equal to the sum of:
30 if `insider_holdings > 30`, 20 if `insider_holdings` is in 20–30%
*exclusive* of 20, 25 if `sniper_holdings > 15`, 15 if `sniper_holdings` is
in 10–15% *exclusive* of 10, 20 if `bundlers > 5`, 10 if `bundlers` is in
3–5, and 25 if LP is not burned, each rule contributing at most once; the
level is HIGH iff score ≥ 70, MEDIUM iff 40 ≤ score < 70, else LOW; and the
two concrete examples of the claim evaluate as stated. -/
theorem C3_risk_rule_table :
    (∀ c : CoinData, (calculate_risk_score c).score = amendedRiskScore c) ∧
    (∀ c : CoinData,
      ((calculate_risk_score c).level = "HIGH" ↔ 70 ≤ (calculate_risk_score c).score) ∧
      ((calculate_risk_score c).level = "MEDIUM" ↔
        40 ≤ (calculate_risk_score c).score ∧ (calculate_risk_score c).score < 70) ∧
      ((calculate_risk_score c).level = "LOW" ↔ (calculate_risk_score c).score < 40)) ∧
    calculate_risk_score ⟨some 35, some 20, some 6, some false⟩ =
      ⟨100, "HIGH", "🔴",
        [RiskFactor.highInsider 35, RiskFactor.highSniper 20, RiskFactor.highBundlers 6,
          RiskFactor.lpNotBurned]⟩ ∧
    calculate_risk_score ⟨some 5, some 2, some 1, some true⟩ = ⟨0, "LOW", "🟢", []⟩ := by
  refine ⟨?_, ?_, by decide, by decide⟩
  · intro c
    simp only [calculate_risk_score, amendedRiskScore]
    rw [band_split (c.insider_holdings.getD 0) 30 20 30 20,
      band_split (c.sniper_holdings.getD 0) 15 10 25 15,
      band_split (c.bundlers.getD 0) 5 2 20 10]
    ring
  · intro c
    have hlevel : (calculate_risk_score c).level =
        if (calculate_risk_score c).score ≥ 70 then "HIGH"
        else if (calculate_risk_score c).score ≥ 40 then "MEDIUM" else "LOW" := rfl
    rw [hlevel]
    split_ifs with h1 h2 <;>
      refine ⟨⟨fun hh => ?_, fun hh => ?_⟩, ⟨fun hh => ?_, fun hh => ?_⟩,
        ⟨fun hh => ?_, fun hh => ?_⟩⟩ <;>
      first
        | rfl
        | omega
        | exact absurd hh (by decide)

/-- C7: the trending score assigned during discovery equals
`mentions×10 + total_views/1000 + total_likes×2 + total_retweets×3 +
max_followers/10000`, and is monotonically non-decreasing in each of the
five inputs with the other four held fixed. -/
theorem C7_trending_score_monotone :
    (∀ (α : Type) (t : Enriched α), trending_score_of t =
        (t.twitter_mentions : ℚ) * 10 + t.total_views / 1000 + t.total_likes * 2 +
          t.total_retweets * 3 + t.max_followers / 10000) ∧
    (∀ m m' v l r f : ℚ, m ≤ m' →
        trending_score m v l r f ≤ trending_score m' v l r f) ∧
    (∀ m v v' l r f : ℚ, v ≤ v' →
        trending_score m v l r f ≤ trending_score m v' l r f) ∧
    (∀ m v l l' r f : ℚ, l ≤ l' →
        trending_score m v l r f ≤ trending_score m v l' r f) ∧
    (∀ m v l r r' f : ℚ, r ≤ r' →
        trending_score m v l r f ≤ trending_score m v l r' f) ∧
    (∀ m v l r f f' : ℚ, f ≤ f' →
        trending_score m v l r f ≤ trending_score m v l r f') := by
  refine ⟨fun α t => rfl, ?_, ?_, ?_, ?_, ?_⟩ <;>
    · intro a b c d e g h
      unfold trending_score
      gcongr

theorem C7_trending_score_monotone_witness :
    trending_score 1 0 0 0 0 ≤ trending_score 2 0 0 0 0 ∧
    trending_score 0 1 0 0 0 ≤ trending_score 0 2 0 0 0 ∧
    trending_score 0 0 1 0 0 ≤ trending_score 0 0 2 0 0 ∧
    trending_score 0 0 0 1 0 ≤ trending_score 0 0 0 2 0 ∧
    trending_score 0 0 0 0 1 ≤ trending_score 0 0 0 0 2 :=
  ⟨C7_trending_score_monotone.2.1 1 2 0 0 0 0 (by norm_num),
   C7_trending_score_monotone.2.2.1 0 1 2 0 0 0 (by norm_num),
   C7_trending_score_monotone.2.2.2.1 0 0 1 2 0 0 (by norm_num),
   C7_trending_score_monotone.2.2.2.2.1 0 0 0 1 2 0 (by norm_num),
   C7_trending_score_monotone.2.2.2.2.2 0 0 0 0 1 2 (by norm_num)⟩

/-- C8: evaluation of the ranking step at the failing input — two tokens
with equal trending score (each 1 mention, zero engagement) are returned in
*reversed* input order by `sort_values('trending_score', ascending=False)`,
because pandas implements the descending sort by reversing the ascending
argsort; the ranking is therefore not stable and re-running it on an
already-sorted sequence with tied scores permutes the tied tokens. -/
theorem C8_rank_reverses_tied_tokens :
    discover_rank
        [(⟨0, 1, 0, 0, 0, 0, 0, none⟩ : Enriched ℕ), ⟨1, 1, 0, 0, 0, 0, 0, none⟩] 1 =
      [⟨1, 1, 0, 0, 0, 0, 0, none⟩, ⟨0, 1, 0, 0, 0, 0, 0, none⟩] ∧
    trending_score_of (⟨0, 1, 0, 0, 0, 0, 0, none⟩ : Enriched ℕ) =
      trending_score_of (⟨1, 1, 0, 0, 0, 0, 0, none⟩ : Enriched ℕ) ∧
    ([(⟨1, 1, 0, 0, 0, 0, 0, none⟩ : Enriched ℕ), ⟨0, 1, 0, 0, 0, 0, 0, none⟩] ≠
      [⟨0, 1, 0, 0, 0, 0, 0, none⟩, ⟨1, 1, 0, 0, 0, 0, 0, none⟩]) := by
  have hA : trending_score_of (⟨0, 1, 0, 0, 0, 0, 0, none⟩ : Enriched ℕ) = 10 := by
    norm_num [trending_score_of, trending_score]
  have hB : trending_score_of (⟨1, 1, 0, 0, 0, 0, 0, none⟩ : Enriched ℕ) = 10 := by
    norm_num [trending_score_of, trending_score]
  refine ⟨?_, hA.trans hB.symm, by simp⟩
  simp [discover_rank, pandas_sort_values_desc, stableSortAscBy, insortAscBy,
    List.filter, hA, hB]

end MemeCoin
